import Mathlib

/-!
# Verification of `cf_complient_wrf.ipynb`

A shallow embedding of the notebook that assembles WRF output split across
several NetCDF files into one in-memory dataset, derives diagnostic fields via
`wrf-python`, and writes a CF-compliant NetCDF file.

Modelling conventions:
* A NetCDF / xarray attribute dictionary is an association list
  `List (String × AttrValue)` with Python-dict semantics (insertion order,
  unique keys, update-in-place, `pop` raising `KeyError` on a missing key).
* Floating-point scalars and array elements are modelled as integers: none of
  the verified properties depends on real-number arithmetic, only on which
  values flow where.
* Fallible Python operations (key lookups that can raise `KeyError` /
  `AttributeError`) are modelled in the `Option` monad.
-/

namespace CFWrf

/-- An attribute value as xarray's NetCDF serializer classifies them:
numbers, strings, ndarrays, lists/tuples of numbers or strings are
serializable; any other Python object (e.g. the `wrf-python` projection
object) is not.  `obj` carries the object's `str()` form. -/
inductive AttrValue where
  | num (v : Int)
  | str (s : String)
  | ndarray (xs : List Int)
  | listNum (xs : List Int)
  | listStr (xs : List String)
  | obj (s : String)
deriving DecidableEq, Repr

/-- Is the value one of the types xarray can write as a NetCDF attribute? -/
def AttrValue.serializable : AttrValue → Bool
  | .obj _ => false
  | _ => true

/-- Python's `str()` applied to an attribute value. -/
def pyStr : AttrValue → String
  | .num v => toString v
  | .str s => s
  | .ndarray _ => "ndarray"
  | .listNum _ => "list"
  | .listStr _ => "list"
  | .obj s => s

/-! ## Association lists with Python-dict semantics -/

/-- First-match lookup, `d[k]` / `d.get(k)`. -/
def lookupA {α : Type} : List (String × α) → String → Option α
  | [], _ => none
  | p :: r, k => if p.1 = k then some p.2 else lookupA r k

/-- `k in d`. -/
def containsA {α : Type} (l : List (String × α)) (k : String) : Bool :=
  (lookupA l k).isSome

/-- `d[k] = v`: replace the (first) entry holding key `k` in place, append a
new entry at the end when the key is absent — Python-dict insertion order. -/
def setA {α : Type} : List (String × α) → String → α → List (String × α)
  | [], k, v => [(k, v)]
  | p :: r, k, v => if p.1 = k then (k, v) :: r else p :: setA r k v

/-- Remove every entry with key `k` (on unique-key lists: remove the entry). -/
def removeA {α : Type} (l : List (String × α)) (k : String) : List (String × α) :=
  l.filter (fun p => p.1 != k)

/-- `d.pop(k)` with no default: `none` models the `KeyError` on a missing key. -/
def popA {α : Type} (l : List (String × α)) (k : String) : Option (List (String × α)) :=
  match lookupA l k with
  | none => none
  | some _ => some (removeA l k)

/-- The update loop of `setncatts(d)`: fold each entry of `a` into `base`. -/
def setncattsList {α : Type} (base a : List (String × α)) : List (String × α) :=
  a.foldl (fun acc q => setA acc q.1 q.2) base

/-! ## The netCDF4 data model -/

/-- A Python attribute dictionary. -/
abbrev Attrs := List (String × AttrValue)

/-- A netCDF4 variable: datatype, dimension tuple, array data (indexed by a
list of indices, one per dimension), and its attribute dictionary. -/
structure NCVariable where
  datatype : String
  dims : List String
  data : List Nat → Int
  attrs : Attrs

/-- A netCDF4 `Dataset`: dimensions (`none` size = unlimited), global
attributes, and named variables, each in insertion order. -/
structure NCDataset where
  dims : List (String × Option Nat)
  attrs : Attrs
  vars : List (String × NCVariable)

/-- `dst.setncatts(d)`: update each attribute in turn. -/
def NCDataset.setncatts (d : NCDataset) (a : Attrs) : NCDataset :=
  { d with attrs := setncattsList d.attrs a }

/-- `dst.createDimension(name, size)` (`size = none` for unlimited). -/
def NCDataset.createDimension (d : NCDataset) (name : String) (size : Option Nat) :
    NCDataset :=
  { d with dims := d.dims ++ [(name, size)] }

/-- `dst.createVariable(name, datatype, dimensions)`: a fresh variable with
zero-filled data and no attributes. -/
def NCDataset.createVariable (d : NCDataset) (name datatype : String)
    (dims : List String) : NCDataset :=
  { d with vars := d.vars ++ [(name, ⟨datatype, dims, fun _ => 0, []⟩)] }

/-- `dst.variables[name][:] = arr`. -/
def NCDataset.setVarData (d : NCDataset) (name : String) (f : List Nat → Int) :
    NCDataset :=
  { d with vars := d.vars.map (fun p =>
      if p.1 = name then (p.1, { p.2 with data := f }) else p) }

/-- `dst[name].setncatts(a)`. -/
def NCDataset.setVarAttrs (d : NCDataset) (name : String) (a : Attrs) : NCDataset :=
  { d with vars := d.vars.map (fun p =>
      if p.1 = name then (p.1, { p.2 with attrs := setncattsList p.2.attrs a })
      else p) }

/-- `src.variables[name]` (`none` models the `KeyError`). -/
def NCDataset.lookupVar (d : NCDataset) (name : String) : Option NCVariable :=
  lookupA d.vars name

/-- `src.dimensions[name]`. -/
def NCDataset.lookupDim (d : NCDataset) (name : String) : Option (Option Nat) :=
  lookupA d.dims name

/-- A scalar numeric attribute read out of an attribute dictionary. -/
def numAttr (a : Attrs) (name : String) : Option Int :=
  match lookupA a name with
  | some (.num v) => some v
  | _ => none

/-- `dst.NAME` for a scalar numeric global attribute (`none` models the
`AttributeError` on a missing or non-numeric attribute). -/
def NCDataset.getNumAttr (d : NCDataset) (name : String) : Option Int :=
  numAttr d.attrs name

/-- Does the dictionary hold a numeric value under each of the names? -/
def hasNumAttrs (a : Attrs) (names : List String) : Bool :=
  names.all (fun n => (numAttr a n).isSome)

/-- `dst.dimensions[name].size` for a fixed-size dimension. -/
def NCDataset.limitedDimSize (d : NCDataset) (name : String) : Option Nat :=
  match d.lookupDim name with
  | some (some n) => some n
  | _ => none

/-- The fresh diskless destination `Dataset("dst_tmp.nc", "w", diskless=True)`. -/
def emptyNC : NCDataset := ⟨[], [], []⟩

/-! ## The notebook's assembly of `dst` (cells 6–11) -/

/-- The variables chosen in the notebook: `my_vars`. -/
def my_vars : List String := ["SPDUV10MEAN", "V10MEAN", "U10MEAN"]

/-- One iteration of the variable-copy loops (cells 7 and 11):
`createVariable` with the source's datatype and dimensions, copy the data,
then `setncatts` the source variable's attributes. -/
def copyVarFrom (srcDs : NCDataset) (name : String) (d : NCDataset) :
    Option NCDataset := do
  let v ← srcDs.lookupVar name
  some (((d.createVariable name v.datatype v.dims).setVarData name v.data).setVarAttrs
    name v.attrs)

/-- `correct_shape_arr = np.zeros(shape); correct_shape_arr[:,:,:] = arr[0,:,:]`:
every time slice of the result is the source's time-0 slice (the zero of the
empty-index case is the `np.zeros` background). -/
def broadcastTime0 (f : List Nat → Int) : List Nat → Int :=
  fun idx =>
    match idx with
    | _t :: rest => f (0 :: rest)
    | [] => 0

/-- One iteration of the lat/lon coordinate loop (cell 8): like `copyVarFrom`
but the data written is the time-0 slice broadcast along the time axis. -/
def copyCoordFrom (coordFile : NCDataset) (name : String) (d : NCDataset) :
    Option NCDataset := do
  let v ← coordFile.lookupVar name
  some (((d.createVariable name v.datatype v.dims).setVarData name
    (broadcastTime0 v.data)).setVarAttrs name v.attrs)

/-- Apply a fallible operation to each element in order, failing on the first
failure (a Python loop that can raise). -/
def mapOption {α β : Type} (f : α → Option β) : List α → Option (List β)
  | [] => some []
  | x :: r => do
    let y ← f x
    let ys ← mapOption f r
    some (y :: ys)

/-- `np.arange(n, dtype='float32') * dy + c`: an arithmetic axis of length
`n` with spacing `dy` and offset `c` (zero outside the array bounds). -/
def axisPoints (n : Nat) (dy c : Int) : List Nat → Int :=
  fun idx =>
    match idx with
    | i :: _ => if i < n then (i : Int) * dy + c else 0
    | [] => 0

/-- The scalar global attributes that cell 9 reads off `dst` (reading any of
them raises `AttributeError` when absent). -/
def cell9AttrNames : List String :=
  ["DT", "DX", "DY", "CEN_LAT", "CEN_LON", "TRUELAT1", "TRUELAT2",
   "STAND_LON", "POLE_LAT", "POLE_LON"]

/-- Cells 9–10: read `nx`, `ny` and the numeric global attributes, transform
the grid corner point, and add the `south_north` / `west_east` axis variables.
Both axes are spaced by `dy` (the source uses `DY` for both); the cartopy
`transform_point` call is an opaque external function passed in as
`transform`.  The `np.arange` arrays have lengths `nx` / `ny`, so the data is
zero outside those bounds. -/
def addProjectedAxes (transform : Int → Int → Int × Int) (d : NCDataset) :
    Option NCDataset := do
  let nx ← d.limitedDimSize "west_east"
  let ny ← d.limitedDimSize "south_north"
  let _cell9Reads ← mapOption d.getNumAttr cell9AttrNames
  let dy ← d.getNumAttr "DY"
  let xlong ← d.lookupVar "XLONG"
  let xlat ← d.lookupVar "XLAT"
  let x0_y0 := transform (xlong.data [0, 0, 0]) (xlat.data [0, 0, 0])
  let west_east_points := axisPoints nx dy x0_y0.1
  let south_north_points := axisPoints ny dy x0_y0.2
  let d1 := ((d.createVariable "south_north" "float32" ["south_north"]).setVarData
    "south_north" south_north_points).setVarAttrs "south_north"
    [("units", .str "m"), ("axis", .str "y")]
  let d2 := ((d1.createVariable "west_east" "float32" ["west_east"]).setVarData
    "west_east" west_east_points).setVarAttrs "west_east"
    [("units", .str "m"), ("axis", .str "x")]
  some d2

/-- Cells 6–11: build the in-memory destination dataset from the data file
`src` (wrfxtrm) and the coordinate file (wrfout). -/
def buildDst (transform : Int → Int → Int × Int) (src coord : NCDataset) :
    Option NCDataset := do
  let d1 := emptyNC.setncatts src.attrs
  let d2 := src.dims.foldl (fun acc q => acc.createDimension q.1 q.2) d1
  let d3 ← copyVarFrom src "Times" d2
  let d4 ← copyCoordFrom coord "XLAT" d3
  let d5 ← copyCoordFrom coord "XLONG" d4
  let d6 ← addProjectedAxes transform d5
  my_vars.foldl (fun acc n => acc.bind (copyVarFrom src n)) (some d6)

/-- The explicit shape of the dataset cells 6–11 assemble (used through
`buildDst_explicit`; `x0_y0` is the transformed corner point). -/
def builtDst (transform : Int → Int → Int × Int) (src : NCDataset)
    (vT vLat vLong v1 v2 v3 : NCVariable) (nx ny : Nat) (dy : Int) : NCDataset :=
  { dims := src.dims
    attrs := src.attrs
    vars :=
      [ ("Times", ⟨vT.datatype, vT.dims, vT.data, setncattsList [] vT.attrs⟩)
      , ("XLAT", ⟨vLat.datatype, vLat.dims, broadcastTime0 vLat.data,
          setncattsList [] vLat.attrs⟩)
      , ("XLONG", ⟨vLong.datatype, vLong.dims, broadcastTime0 vLong.data,
          setncattsList [] vLong.attrs⟩)
      , ("south_north", ⟨"float32", ["south_north"],
          axisPoints ny dy (transform (vLong.data [0, 0, 0]) (vLat.data [0, 0, 0])).2,
          [("units", .str "m"), ("axis", .str "y")]⟩)
      , ("west_east", ⟨"float32", ["west_east"],
          axisPoints nx dy (transform (vLong.data [0, 0, 0]) (vLat.data [0, 0, 0])).1,
          [("units", .str "m"), ("axis", .str "x")]⟩)
      , ("SPDUV10MEAN", ⟨v1.datatype, v1.dims, v1.data, setncattsList [] v1.attrs⟩)
      , ("V10MEAN", ⟨v2.datatype, v2.dims, v2.data, setncattsList [] v2.attrs⟩)
      , ("U10MEAN", ⟨v3.datatype, v3.dims, v3.data, setncattsList [] v3.attrs⟩) ] }

/-- The destination after cells 6–8: dimensions and global attributes from
`src`, plus the copied `Times` and the broadcast `XLAT` / `XLONG`. -/
def builtCore (src : NCDataset) (vT vLat vLong : NCVariable) : NCDataset :=
  { dims := src.dims
    attrs := src.attrs
    vars :=
      [ ("Times", ⟨vT.datatype, vT.dims, vT.data, setncattsList [] vT.attrs⟩)
      , ("XLAT", ⟨vLat.datatype, vLat.dims, broadcastTime0 vLat.data,
          setncattsList [] vLat.attrs⟩)
      , ("XLONG", ⟨vLong.datatype, vLong.dims, broadcastTime0 vLong.data,
          setncattsList [] vLong.attrs⟩) ] }

/-! ## The wrf-python / xarray stage (cells 13–21) -/

/-- An xarray `DataArray`: name, dimensions with sizes, data, attributes. -/
structure DataArray where
  name : String
  dims : List (String × Nat)
  data : List Nat → Int
  attrs : Attrs

/-- An xarray `Dataset`: named data variables and global attributes. -/
structure XrDataset where
  dataVars : List DataArray
  attrs : Attrs

/-- Size a dimension name resolves to when `getvar` shapes its output
(an unlimited dimension reports its current size; sizes play no role in the
verified properties beyond being carried along). -/
def NCDataset.dimSizeOrZero (d : NCDataset) (n : String) : Nat :=
  match d.lookupDim n with
  | some (some k) => k
  | _ => 0

/-- The string `coordinates` attribute wrf-python adds. -/
def coordinatesStr : AttrValue := .str "XLONG XLAT XTIME"

/-- The non-serializable projection object wrf-python adds (its `str()` form
is the payload; notebook cell 16 shows the concrete object). -/
def projectionObj : AttrValue :=
  .obj "PolarStereographic(stand_lon=-45.0, truelat1=-90.0, truelat2=-90.0, pole_lat=90.0, pole_lon=0.0)"

/-- The attribute dictionary wrf-python hands back: the source variable's own
attributes plus `coordinates` and `projection`. -/
def getvarAttrs (a : Attrs) : Attrs :=
  setA (setA a "coordinates" coordinatesStr) "projection" projectionObj

/-- The `DataArray` built for variable `v` of `dst` under the requested name. -/
def getvarDA (dst : NCDataset) (name : String) (v : NCVariable) : DataArray :=
  { name := name
    dims := v.dims.map (fun dn => (dn, dst.dimSizeOrZero dn))
    data := v.data
    attrs := getvarAttrs v.attrs }

/-- Modelled from the spec: `wrf.getvar(dst, name, timeidx=ALL_TIMES)` — the
third-party WRF post-processing call, absent from the repository source — is
documented to return a `DataArray` named after the requested field, carrying
the source variable's data and attributes plus a string `coordinates`
attribute and a `projection` attribute holding a non-serializable library
object (notebook cell 16 shows exactly this dictionary).  A missing variable
raises, hence `Option`. -/
def getvar (dst : NCDataset) (name : String) (_allTimes : Bool) : Option DataArray :=
  (dst.lookupVar name).map (getvarDA dst name)

/-- Cell 13's loop: `da_list = [wrf.getvar(dst, v, timeidx=wrf.ALL_TIMES) for v in my_vars]`. -/
def daList (dst : NCDataset) : Option (List DataArray) :=
  mapOption (fun v => getvar dst v true) my_vars

/-- The requests cell 13 issues to the external library: one per name in
`my_vars`, each with `timeidx = ALL_TIMES` (the `true` flag). -/
def getvarRequests : List (String × Bool) :=
  my_vars.map (fun v => (v, true))

/-- Modelled from the spec: `xr.merge(da_list)` — an external xarray call —
merges the named DataArrays into one Dataset whose data variables are exactly
those arrays in order; the merged dataset carries no global attributes. -/
def xrMerge (das : List DataArray) : XrDataset :=
  ⟨das, []⟩

/-- The merged dataset `ds` of cell 13. -/
def mergedDs (dst : NCDataset) : Option XrDataset :=
  (daList dst).map xrMerge

/-- Keep the first entry for each key (how xarray unions dimension maps). -/
def dedupKeysA {α : Type} (l : List (String × α)) : List (String × α) :=
  l.foldl (fun acc p => if containsA acc p.1 then acc else acc ++ [p]) []

/-- The dimension map of an xarray Dataset: the union, first occurrence
winning, of its variables' dimension maps. -/
def XrDataset.dimsOf (ds : XrDataset) : List (String × Nat) :=
  dedupKeysA (ds.dataVars.flatMap (fun da => da.dims))

/-- `ds[name]` over the data variables (first match by name). -/
def findDA : List DataArray → String → Option DataArray
  | [], _ => none
  | da :: r, n => if da.name = n then some da else findDA r n

/-- `ds[name]`. -/
def XrDataset.lookupDA (ds : XrDataset) (name : String) : Option DataArray :=
  findDA ds.dataVars name

/-- Replace the attribute dictionary of the variable called `name`. -/
def XrDataset.setDAAttrs (ds : XrDataset) (name : String) (a : Attrs) : XrDataset :=
  { ds with dataVars := ds.dataVars.map (fun da =>
      if da.name = name then { da with attrs := a } else da) }

/-- The body of cell 17's fix loop on one attribute dictionary:
`attrs['projection'] = str(attrs['projection']); attrs.pop('coordinates')`. -/
def fixVarAttrs (a : Attrs) : Option Attrs := do
  let p ← lookupA a "projection"
  let a1 := setA a "projection" (.str (pyStr p))
  popA a1 "coordinates"

/-- What the fix loop turns a wrf-python attribute dictionary into. -/
def fixedGetvarAttrs (a : Attrs) : Attrs :=
  removeA (setA (getvarAttrs a) "projection" (.str (pyStr projectionObj))) "coordinates"

/-- One iteration of cell 17's loop on the dataset. -/
def fixDsVar (ds : XrDataset) (name : String) : Option XrDataset := do
  let da ← ds.lookupDA name
  let a2 ← fixVarAttrs da.attrs
  some (ds.setDAAttrs name a2)

/-- Cell 17's whole fix loop over `my_vars`. -/
def fixAllAttrs (ds : XrDataset) : Option XrDataset :=
  my_vars.foldl (fun acc n => acc.bind (fun d => fixDsVar d n)) (some ds)

/-- Are all attribute values (global and per-variable) serializable? -/
def XrDataset.allAttrsSerializable (ds : XrDataset) : Bool :=
  ds.attrs.all (fun p => p.2.serializable) &&
  ds.dataVars.all (fun da => da.attrs.all (fun p => p.2.serializable))

/-- Modelled from the spec: `ds.to_netcdf(path)` — the external xarray
serializer — raises `TypeError` exactly when some attribute value is not a
number, string, ndarray, or list/tuple of numbers/strings; on success the
written file holds the dataset. -/
def toNetcdf (ds : XrDataset) : Except String XrDataset :=
  if ds.allAttrsSerializable then .ok ds else .error "TypeError"

/-- Modelled from the spec: `xr.open_dataset` on the written file returns the
stored dataset. -/
def openDataset (file : XrDataset) : XrDataset := file

/-! ## File-system effects of the script -/

/-- Modelled from the spec: files created in the working directory by a
`netCDF4.Dataset(path, "w", diskless=...)` call — none when diskless. -/
def openWriteFiles (path : String) (diskless : Bool) : List String :=
  if diskless then [] else [path]

/-- Modelled from the spec: files created by `ds.to_netcdf(path)` — the file
on success, nothing when the serializer raises. -/
def toNetcdfFiles (ds : XrDataset) (path : String) : List String :=
  match toNetcdf ds with
  | .ok _ => [path]
  | .error _ => []

/-- Every file ever written by the script in order: the diskless destination
open (cell 6), the first `to_netcdf` (cell 15), and the post-fix `to_netcdf`
(cell 17). -/
def scriptFileWrites (dst : NCDataset) : Option (List String) := do
  let ds ← mergedDs dst
  let dsF ← fixAllAttrs ds
  some (openWriteFiles "dst_tmp.nc" true ++ toNetcdfFiles ds "test.nc" ++
    toNetcdfFiles dsF "test.nc")

/-! ## The shape of the script's statements (for the control-flow claim) -/

/-- Classification of one top-level statement of a notebook cell. -/
inductive StmtKind where
  | libCall
  | assignment
  | forLoopCalls
  | tryExceptGuard
  | condExprCall
deriving DecidableEq, Repr

/-- A statement of the notebook, tagged with the code cell (0-based index
among all cells of the `.ipynb`) it appears in. -/
structure ScriptStmt where
  cell : Nat
  desc : String
  kind : StmtKind
deriving DecidableEq, Repr

/-- Transcript of the notebook's top-level statements in order. -/
def notebookStmts : List ScriptStmt :=
  [ ⟨1, "import libraries", .libCall⟩,
    ⟨3, "root_dir assignment", .assignment⟩,
    ⟨3, "nc = Dataset(wrfout)", .libCall⟩,
    ⟨5, "root_dir / my_vars assignments", .assignment⟩,
    ⟨6, "src = Dataset(wrfxtrm)", .libCall⟩,
    ⟨6, "close existing in-memory dst, guarded by try/except NameError", .tryExceptGuard⟩,
    ⟨6, "dst = Dataset(dst_tmp.nc, w, diskless=True)", .libCall⟩,
    ⟨6, "dst.setncatts(src attributes)", .libCall⟩,
    ⟨6, "for-loop copying dimensions, size chosen by an inline conditional on isunlimited", .condExprCall⟩,
    ⟨7, "createVariable for Times", .libCall⟩,
    ⟨7, "copy Times data", .libCall⟩,
    ⟨7, "setncatts for Times", .libCall⟩,
    ⟨8, "coord_file = Dataset(wrfout)", .libCall⟩,
    ⟨8, "for-loop copying XLAT and XLONG broadcast to all times", .forLoopCalls⟩,
    ⟨9, "read nx, ny and the scalar global attributes", .assignment⟩,
    ⟨10, "transform_point for the corner", .libCall⟩,
    ⟨10, "west_east_points / south_north_points arithmetic", .assignment⟩,
    ⟨10, "create and fill south_north variable", .libCall⟩,
    ⟨10, "create and fill west_east variable", .libCall⟩,
    ⟨11, "for-loop copying my_vars from src", .forLoopCalls⟩,
    ⟨13, "for-loop of wrf.getvar requests", .forLoopCalls⟩,
    ⟨13, "ds = xr.merge(da_list)", .libCall⟩,
    ⟨14, "close in-memory dst, guarded by try/except NameError", .tryExceptGuard⟩,
    ⟨15, "ds.to_netcdf(test.nc)", .libCall⟩,
    ⟨16, "display SPDUV10MEAN attrs", .libCall⟩,
    ⟨17, "for-loop fixing projection and coordinates attributes", .forLoopCalls⟩,
    ⟨17, "ds.to_netcdf(test.nc)", .libCall⟩,
    ⟨20, "ds2 = xr.open_dataset(test.nc)", .libCall⟩,
    ⟨21, "display reopened SPDUV10MEAN attrs", .libCall⟩ ]

/-- A statement is branch-free when its behaviour involves neither exception
handling nor a conditional path. -/
def branchFree (s : ScriptStmt) : Bool :=
  s.kind != .tryExceptGuard && s.kind != .condExprCall

/-! ## Concrete input files for witnesses -/

/-- A small concrete data variable as the wrfxtrm file holds. -/
def exVar (c : Int) : NCVariable :=
  { datatype := "float32"
    dims := ["Time", "south_north", "west_east"]
    data := fun idx =>
      match idx with
      | t :: i :: j :: _ => c + 100 * (t : Int) + 10 * (i : Int) + (j : Int)
      | _ => 0
    attrs := [("FieldType", .num 104), ("MemoryOrder", .str "XY "),
      ("units", .str "m s-1")] }

/-- A small concrete `Times` variable. -/
def exTimes : NCVariable :=
  { datatype := "S1"
    dims := ["Time", "DateStrLen"]
    data := fun _ => 55
    attrs := [("description", .str "times")] }

/-- A small concrete coordinate variable (`XLAT` / `XLONG`): its values vary
with the time index so that the broadcast of the time-0 slice is visible. -/
def exCoordVar (c : Int) : NCVariable :=
  { datatype := "float32"
    dims := ["Time", "south_north", "west_east"]
    data := fun idx =>
      match idx with
      | t :: i :: j :: _ => c + 1000 * (t : Int) + 10 * (i : Int) + (j : Int)
      | _ => 0
    attrs := [("units", .str "degree")] }

/-- A concrete wrfxtrm-style source file. -/
def exSrc : NCDataset :=
  { dims := [("Time", none), ("DateStrLen", some 19), ("south_north", some 2),
      ("west_east", some 3)]
    attrs := [("DT", .num 60), ("DX", .num 9000), ("DY", .num 10000),
      ("CEN_LAT", .num (-75)), ("CEN_LON", .num (-45)), ("TRUELAT1", .num (-90)),
      ("TRUELAT2", .num (-90)), ("STAND_LON", .num (-45)), ("POLE_LAT", .num 90),
      ("POLE_LON", .num 0), ("TITLE", .str "WRF TEST")]
    vars := [("Times", exTimes), ("SPDUV10MEAN", exVar 1), ("V10MEAN", exVar 2),
      ("U10MEAN", exVar 3)] }

/-- A concrete wrfout-style coordinate file. -/
def exCoord : NCDataset :=
  { dims := [("Time", none), ("south_north", some 2), ("west_east", some 3)]
    attrs := []
    vars := [("XLAT", exCoordVar (-78)), ("XLONG", exCoordVar (-123))] }

/-- A concrete stand-in for the cartopy corner-point transformation. -/
def exTransform : Int → Int → Int × Int := fun lon lat => (100 * lon, 100 * lat)

/-- A small assembled destination, used where only the `my_vars` variables
matter. -/
def exDstSimple : NCDataset :=
  { dims := [("Time", none), ("south_north", some 2), ("west_east", some 3)]
    attrs := []
    vars := [("SPDUV10MEAN", exVar 1), ("V10MEAN", exVar 2), ("U10MEAN", exVar 3)] }

/-! ## The claims -/

/-- The merged dataset of the concrete pipeline run. -/
def exMerged : XrDataset :=
  ⟨[getvarDA exDstSimple "SPDUV10MEAN" (exVar 1),
    getvarDA exDstSimple "V10MEAN" (exVar 2),
    getvarDA exDstSimple "U10MEAN" (exVar 3)], []⟩

/-- The concrete merged dataset after cell 17's attribute fix. -/
def exFixed : XrDataset :=
  ⟨[⟨"SPDUV10MEAN", (exVar 1).dims.map (fun dn => (dn, exDstSimple.dimSizeOrZero dn)),
      (exVar 1).data, fixedGetvarAttrs (exVar 1).attrs⟩,
    ⟨"V10MEAN", (exVar 2).dims.map (fun dn => (dn, exDstSimple.dimSizeOrZero dn)),
      (exVar 2).data, fixedGetvarAttrs (exVar 2).attrs⟩,
    ⟨"U10MEAN", (exVar 3).dims.map (fun dn => (dn, exDstSimple.dimSizeOrZero dn)),
      (exVar 3).data, fixedGetvarAttrs (exVar 3).attrs⟩], []⟩

/-- The destination the concrete inputs assemble to. -/
def exBuilt : NCDataset :=
  builtDst exTransform exSrc exTimes (exCoordVar (-78)) (exCoordVar (-123))
    (exVar 1) (exVar 2) (exVar 3) 3 2 10000

theorem lookupA_mem {α : Type} {l : List (String × α)} {k : String} {v : α}
    (h : lookupA l k = some v) : (k, v) ∈ l := by
  induction l with
  | nil => simp [lookupA] at h
  | cons p r ih =>
    by_cases hk : p.1 = k
    · simp only [lookupA, hk, if_pos] at h
      cases h
      cases p
      simp_all
    · simp only [lookupA, hk, if_false] at h
      exact List.mem_cons_of_mem _ (ih h)

theorem mem_lookupA {α : Type} {l : List (String × α)}
    (hnd : (l.map Prod.fst).Nodup) {k : String} {v : α}
    (h : (k, v) ∈ l) : lookupA l k = some v := by
  induction l with
  | nil => simp at h
  | cons p r ih =>
    simp only [List.map_cons, List.nodup_cons] at hnd
    rcases List.mem_cons.mp h with h1 | h1
    · subst h1
      simp [lookupA]
    · have hne : p.1 ≠ k := by
        intro hc
        exact hnd.1 (hc ▸ (List.mem_map.mpr ⟨(k, v), h1, rfl⟩))
      simp only [lookupA, hne, if_false]
      exact ih hnd.2 h1

theorem lookupA_append {α : Type} (a b : List (String × α)) (k : String) :
    lookupA (a ++ b) k =
      match lookupA a k with
      | some v => some v
      | none => lookupA b k := by
  induction a with
  | nil => simp [lookupA]
  | cons p r ih =>
    by_cases hk : p.1 = k <;> simp [lookupA, hk, ih]

theorem lookupA_setA_self {α : Type} (l : List (String × α)) (k : String) (v : α) :
    lookupA (setA l k v) k = some v := by
  induction l with
  | nil => simp [setA, lookupA]
  | cons p r ih =>
    by_cases hk : p.1 = k
    · simp [setA, hk, lookupA]
    · simp [setA, hk, lookupA, ih]

theorem lookupA_setA_ne {α : Type} {k k' : String} (h : k' ≠ k)
    (l : List (String × α)) (v : α) :
    lookupA (setA l k v) k' = lookupA l k' := by
  have hkk : ¬ (k = k') := fun hc => h hc.symm
  induction l with
  | nil => simp [setA, lookupA, hkk]
  | cons p r ih =>
    by_cases hk : p.1 = k
    · simp [setA, hk, lookupA, hkk]
    · by_cases hp : p.1 = k'
      · simp [setA, hk, lookupA, hp, h, hkk]
      · simp [setA, hk, lookupA, hp, ih]

theorem mem_setA {α : Type} {q : String × α} {l : List (String × α)}
    {k : String} {v : α} (h : q ∈ setA l k v) : q = (k, v) ∨ q ∈ l := by
  induction l with
  | nil => simp [setA] at h; simp [h]
  | cons p r ih =>
    by_cases hk : p.1 = k
    · simp only [setA, hk, if_pos] at h
      rcases List.mem_cons.mp h with h1 | h1
      · exact Or.inl h1
      · exact Or.inr (List.mem_cons_of_mem _ h1)
    · simp only [setA, hk, if_false] at h
      rcases List.mem_cons.mp h with h1 | h1
      · exact Or.inr (h1 ▸ List.mem_cons_self _ _)
      · rcases ih h1 with h2 | h2
        · exact Or.inl h2
        · exact Or.inr (List.mem_cons_of_mem _ h2)

theorem lookupA_removeA_self {α : Type} (l : List (String × α)) (k : String) :
    lookupA (removeA l k) k = none := by
  induction l with
  | nil => simp [removeA, lookupA]
  | cons p r ih =>
    by_cases hk : p.1 = k
    · simpa [removeA, lookupA, hk] using ih
    · simpa [removeA, lookupA, hk] using ih

theorem lookupA_removeA_ne {α : Type} {k k' : String} (h : k' ≠ k)
    (l : List (String × α)) :
    lookupA (removeA l k) k' = lookupA l k' := by
  have hkk : ¬ (k = k') := fun hc => h hc.symm
  induction l with
  | nil => simp [removeA, lookupA]
  | cons p r ih =>
    by_cases hk : p.1 = k
    · simpa [removeA, lookupA, hk, hkk] using ih
    · have hcons : removeA (p :: r) k = p :: removeA r k := by
        simp [removeA, List.filter_cons, hk]
      by_cases hp : p.1 = k'
      · rw [hcons]; simp [lookupA, hp]
      · rw [hcons]; simpa [lookupA, hp] using ih

theorem mem_removeA {α : Type} {q : String × α} {l : List (String × α)}
    {k : String} (h : q ∈ removeA l k) : q ∈ l ∧ q.1 ≠ k := by
  unfold removeA at h
  have h2 := List.of_mem_filter h
  exact ⟨List.mem_of_mem_filter h, by simpa using h2⟩

theorem setA_eq_append {α : Type} {l : List (String × α)} {k : String}
    (h : containsA l k = false) (v : α) : setA l k v = l ++ [(k, v)] := by
  induction l with
  | nil => simp [setA]
  | cons p r ih =>
    by_cases hk : p.1 = k
    · exfalso
      simp [containsA, lookupA, hk] at h
    · have hr : containsA r k = false := by
        simpa [containsA, lookupA, hk] using h
      simp [setA, hk, ih hr]

theorem lookupA_eq_none {α : Type} {l : List (String × α)} {k : String} :
    lookupA l k = none ↔ k ∉ l.map Prod.fst := by
  induction l with
  | nil => simp [lookupA]
  | cons p r ih =>
    by_cases hk : p.1 = k
    · simp [lookupA, hk]
    · have hkk : ¬ (k = p.1) := fun hc => hk hc.symm
      simp [lookupA, hk, hkk, ih]

theorem keys_setA {α : Type} (l : List (String × α)) (k : String) (v : α) :
    (setA l k v).map Prod.fst =
      if containsA l k then l.map Prod.fst else l.map Prod.fst ++ [k] := by
  induction l with
  | nil => simp [setA, containsA, lookupA]
  | cons p r ih =>
    by_cases hk : p.1 = k
    · simp [setA, hk, containsA, lookupA]
    · have hcons : containsA (p :: r) k = containsA r k := by
        simp [containsA, lookupA, hk]
      rw [hcons]
      by_cases hc : containsA r k
      · simp [setA, hk, ih, hc]
      · simp [setA, hk, ih, hc]

theorem nodup_keys_setA {α : Type} {l : List (String × α)}
    (h : (l.map Prod.fst).Nodup) (k : String) (v : α) :
    ((setA l k v).map Prod.fst).Nodup := by
  rw [keys_setA]
  by_cases hc : containsA l k
  · simp [hc, h]
  · have hb : containsA l k = false := by simpa using hc
    have hk : k ∉ l.map Prod.fst := by
      rw [← lookupA_eq_none]
      simp only [containsA] at hb
      cases hl : lookupA l k
      · rfl
      · rw [hl] at hb; simp at hb
    simp only [hb, if_false, Bool.false_eq_true]
    rw [List.nodup_append]
    refine ⟨h, List.nodup_singleton _, ?_⟩
    intro a ha hb2
    simp only [List.mem_singleton] at hb2
    exact hk (hb2 ▸ ha)

theorem mem_setA_of_nodup {α : Type} {q : String × α} {l : List (String × α)}
    {k : String} {v : α} (hnd : (l.map Prod.fst).Nodup) (h : q ∈ setA l k v) :
    q = (k, v) ∨ (q ∈ l ∧ q.1 ≠ k) := by
  induction l with
  | nil => simp [setA] at h; simp [h]
  | cons p r ih =>
    simp only [List.map_cons, List.nodup_cons] at hnd
    by_cases hk : p.1 = k
    · simp only [setA, hk, if_pos] at h
      rcases List.mem_cons.mp h with h1 | h1
      · exact Or.inl h1
      · refine Or.inr ⟨List.mem_cons_of_mem _ h1, fun hc => ?_⟩
        exact hnd.1 (hk ▸ hc ▸ List.mem_map.mpr ⟨q, h1, rfl⟩)
    · simp only [setA, hk, if_false] at h
      rcases List.mem_cons.mp h with h1 | h1
      · refine Or.inr ⟨h1 ▸ List.mem_cons_self _ _, ?_⟩
        rw [h1]
        exact hk
      · rcases ih hnd.2 h1 with h2 | ⟨h2a, h2b⟩
        · exact Or.inl h2
        · exact Or.inr ⟨List.mem_cons_of_mem _ h2a, h2b⟩

/-- `setncatts` starting from keys disjoint from the dict being copied in
appends the entries in order: with unique keys, copying a dict into an empty
container reproduces it exactly. -/
theorem foldl_setA_of_disjoint {α : Type} {l : List (String × α)} :
    ∀ {acc : List (String × α)},
      (∀ q ∈ l, containsA acc q.1 = false) → (l.map Prod.fst).Nodup →
      l.foldl (fun a q => setA a q.1 q.2) acc = acc ++ l := by
  induction l with
  | nil => intro acc _ _; simp
  | cons p r ih =>
    intro acc hd hnd
    simp only [List.map_cons, List.nodup_cons] at hnd
    have h1 : setA acc p.1 p.2 = acc ++ [p] := by
      rw [setA_eq_append (hd p (List.mem_cons_self _ _)) p.2]
    have hd' : ∀ q ∈ r, containsA (acc ++ [p]) q.1 = false := by
      intro q hq
      have hq1 : containsA acc q.1 = false := hd q (List.mem_cons_of_mem _ hq)
      have hq2 : p.1 ≠ q.1 := by
        intro hc
        exact hnd.1 (hc ▸ (List.mem_map.mpr ⟨q, hq, rfl⟩))
      simp only [containsA, lookupA_append] at hq1 ⊢
      cases hl : lookupA acc q.1 with
      | some w => rw [hl] at hq1; simp at hq1
      | none => simp [lookupA, hq2]
    calc (p :: r).foldl (fun a q => setA a q.1 q.2) acc
        = r.foldl (fun a q => setA a q.1 q.2) (acc ++ [p]) := by
          simp [List.foldl_cons, h1]
      _ = (acc ++ [p]) ++ r := ih hd' hnd.2
      _ = acc ++ p :: r := by simp

/-- Copying a unique-key dict into an empty container reproduces it. -/
theorem setncattsList_empty {α : Type} {l : List (String × α)}
    (h : (l.map Prod.fst).Nodup) : setncattsList [] l = l := by
  have hf := @foldl_setA_of_disjoint _ l []
    (fun q _ => by simp [containsA, lookupA]) h
  simpa [setncattsList] using hf

/-! ## Computing the assembled destination dataset -/

theorem foldl_createDimension (l : List (String × Option Nat)) :
    ∀ d : NCDataset,
      l.foldl (fun acc q => acc.createDimension q.1 q.2) d = { d with dims := d.dims ++ l } := by
  induction l with
  | nil => intro d; simp
  | cons p r ih =>
    intro d
    rw [List.foldl_cons, ih]
    simp [NCDataset.createDimension]

theorem hasNumAttrs_mapOption {a : Attrs} :
    ∀ {names : List String}, hasNumAttrs a names = true →
      ∃ xs, mapOption (numAttr a) names = some xs := by
  intro names
  induction names with
  | nil => intro _; exact ⟨[], rfl⟩
  | cons n r ih =>
    intro h
    simp only [hasNumAttrs, List.all_cons, Bool.and_eq_true] at h
    obtain ⟨x, hx⟩ := Option.isSome_iff_exists.mp h.1
    obtain ⟨xs, hxs⟩ := ih (by simpa [hasNumAttrs] using h.2)
    exact ⟨x :: xs, by simp [mapOption, hx, hxs]⟩

theorem copyVarFrom_eq {srcDs : NCDataset} {name : String} {v : NCVariable}
    (h : srcDs.lookupVar name = some v) (d : NCDataset) :
    copyVarFrom srcDs name d =
      some (((d.createVariable name v.datatype v.dims).setVarData name
        v.data).setVarAttrs name v.attrs) := by
  simp [copyVarFrom, h]

theorem copyCoordFrom_eq {coordFile : NCDataset} {name : String} {v : NCVariable}
    (h : coordFile.lookupVar name = some v) (d : NCDataset) :
    copyCoordFrom coordFile name d =
      some (((d.createVariable name v.datatype v.dims).setVarData name
        (broadcastTime0 v.data)).setVarAttrs name v.attrs) := by
  simp [copyCoordFrom, h]

theorem addProjectedAxes_eq (transform : Int → Int → Int × Int) (d : NCDataset)
    {nx ny : Nat} {dy : Int} {xlong xlat : NCVariable} {xs : List Int}
    (hnx : d.limitedDimSize "west_east" = some nx)
    (hny : d.limitedDimSize "south_north" = some ny)
    (hmap : mapOption d.getNumAttr cell9AttrNames = some xs)
    (hdy : d.getNumAttr "DY" = some dy)
    (hxlong : d.lookupVar "XLONG" = some xlong)
    (hxlat : d.lookupVar "XLAT" = some xlat) :
    addProjectedAxes transform d = some
      (((((d.createVariable "south_north" "float32" ["south_north"]).setVarData
          "south_north"
          (axisPoints ny dy (transform (xlong.data [0, 0, 0]) (xlat.data [0, 0, 0])).2)).setVarAttrs
          "south_north" [("units", .str "m"), ("axis", .str "y")]).createVariable
          "west_east" "float32" ["west_east"]).setVarData "west_east"
          (axisPoints nx dy (transform (xlong.data [0, 0, 0]) (xlat.data [0, 0, 0])).1)
        |>.setVarAttrs "west_east" [("units", .str "m"), ("axis", .str "x")]) := by
  simp [addProjectedAxes, hnx, hny, hmap, hdy, hxlong, hxlat]

theorem buildDst_explicit
    (transform : Int → Int → Int × Int) (src coord : NCDataset)
    (vT vLat vLong v1 v2 v3 : NCVariable) (nx ny : Nat) (dy : Int)
    (hT : src.lookupVar "Times" = some vT)
    (hLat : coord.lookupVar "XLAT" = some vLat)
    (hLong : coord.lookupVar "XLONG" = some vLong)
    (h1 : src.lookupVar "SPDUV10MEAN" = some v1)
    (h2 : src.lookupVar "V10MEAN" = some v2)
    (h3 : src.lookupVar "U10MEAN" = some v3)
    (hnx : lookupA src.dims "west_east" = some (some nx))
    (hny : lookupA src.dims "south_north" = some (some ny))
    (hnum : hasNumAttrs src.attrs cell9AttrNames = true)
    (hdy : lookupA src.attrs "DY" = some (.num dy))
    (hAttrNd : (src.attrs.map Prod.fst).Nodup) :
    buildDst transform src coord =
      some (builtDst transform src vT vLat vLong v1 v2 v3 nx ny dy) := by
  obtain ⟨xs, hxs⟩ := hasNumAttrs_mapOption hnum
  have hd1 : NCDataset.setncatts emptyNC src.attrs =
      ({ dims := [], attrs := src.attrs, vars := [] } : NCDataset) := by
    simp [NCDataset.setncatts, emptyNC, setncattsList_empty hAttrNd]
  have hd2 : src.dims.foldl (fun acc q => acc.createDimension q.1 q.2)
      ({ dims := [], attrs := src.attrs, vars := [] } : NCDataset) =
      ({ dims := src.dims, attrs := src.attrs, vars := [] } : NCDataset) := by
    rw [foldl_createDimension]
    simp
  simp only [buildDst, hd1, hd2]
  rw [copyVarFrom_eq hT]
  simp only [Option.bind_eq_bind, Option.some_bind, NCDataset.createVariable,
    NCDataset.setVarData, NCDataset.setVarAttrs, List.map_cons, List.map_nil,
    String.reduceEq, reduceIte, List.cons_append, List.nil_append]
  rw [copyCoordFrom_eq hLat]
  simp only [Option.some_bind, NCDataset.createVariable, NCDataset.setVarData,
    NCDataset.setVarAttrs, List.map_cons, List.map_nil, String.reduceEq, reduceIte,
    List.cons_append, List.nil_append]
  rw [copyCoordFrom_eq hLong]
  simp only [Option.some_bind, NCDataset.createVariable, NCDataset.setVarData,
    NCDataset.setVarAttrs, List.map_cons, List.map_nil, String.reduceEq, reduceIte,
    List.cons_append, List.nil_append]
  have hweR : (builtCore src vT vLat vLong).limitedDimSize "west_east" = some nx := by
    simp [builtCore, NCDataset.limitedDimSize, NCDataset.lookupDim, hnx]
  have hsnR : (builtCore src vT vLat vLong).limitedDimSize "south_north" = some ny := by
    simp [builtCore, NCDataset.limitedDimSize, NCDataset.lookupDim, hny]
  have hmapR : mapOption (builtCore src vT vLat vLong).getNumAttr cell9AttrNames = some xs := by
    simpa [builtCore, NCDataset.getNumAttr] using hxs
  have hdyR : (builtCore src vT vLat vLong).getNumAttr "DY" = some dy := by
    simp [builtCore, NCDataset.getNumAttr, numAttr, hdy]
  have hlongR : (builtCore src vT vLat vLong).lookupVar "XLONG" =
      some ⟨vLong.datatype, vLong.dims, broadcastTime0 vLong.data, setncattsList [] vLong.attrs⟩ := by
    simp [builtCore, NCDataset.lookupVar, lookupA]
  have hlatR : (builtCore src vT vLat vLong).lookupVar "XLAT" =
      some ⟨vLat.datatype, vLat.dims, broadcastTime0 vLat.data, setncattsList [] vLat.attrs⟩ := by
    simp [builtCore, NCDataset.lookupVar, lookupA]
  have hax := addProjectedAxes_eq transform (builtCore src vT vLat vLong)
    hweR hsnR hmapR hdyR hlongR hlatR
  simp only [builtCore] at hax
  rw [hax]
  simp only [Option.some_bind, NCDataset.createVariable, NCDataset.setVarData,
    NCDataset.setVarAttrs, List.map_cons, List.map_nil, String.reduceEq, reduceIte,
    List.cons_append, List.nil_append]
  simp only [my_vars, List.foldl_cons, List.foldl_nil, Option.bind_eq_bind,
    Option.some_bind]
  rw [copyVarFrom_eq h1]
  simp only [Option.some_bind, NCDataset.createVariable, NCDataset.setVarData,
    NCDataset.setVarAttrs, List.map_cons, List.map_nil, String.reduceEq, reduceIte,
    List.cons_append, List.nil_append]
  rw [copyVarFrom_eq h2]
  simp only [Option.some_bind, NCDataset.createVariable, NCDataset.setVarData,
    NCDataset.setVarAttrs, List.map_cons, List.map_nil, String.reduceEq, reduceIte,
    List.cons_append, List.nil_append]
  rw [copyVarFrom_eq h3]
  simp only [Option.some_bind, NCDataset.createVariable, NCDataset.setVarData,
    NCDataset.setVarAttrs, List.map_cons, List.map_nil, String.reduceEq, reduceIte,
    List.cons_append, List.nil_append]
  simp [builtDst, broadcastTime0]
  exact ⟨rfl, rfl⟩

/-! ## Lemmas about the fix loop and the merged dataset -/

theorem fixVarAttrs_spec {a a2 : Attrs} (h : fixVarAttrs a = some a2) :
    ∃ p, lookupA a "projection" = some p ∧
      a2 = removeA (setA a "projection" (.str (pyStr p))) "coordinates" ∧
      lookupA a2 "projection" = some (.str (pyStr p)) ∧
      lookupA a2 "coordinates" = none ∧
      ∀ k, k ≠ "projection" → k ≠ "coordinates" → lookupA a2 k = lookupA a k := by
  cases hp : lookupA a "projection" with
  | none => simp [fixVarAttrs, hp] at h
  | some p =>
    have h2 : popA (setA a "projection" (.str (pyStr p))) "coordinates" = some a2 := by
      simpa [fixVarAttrs, hp] using h
    cases hc : lookupA (setA a "projection" (.str (pyStr p))) "coordinates" with
    | none => simp [popA, hc] at h2
    | some c =>
      have ha2 : a2 = removeA (setA a "projection" (.str (pyStr p))) "coordinates" := by
        simp [popA, hc] at h2
        exact h2.symm
      subst ha2
      refine ⟨p, rfl, rfl, ?_, ?_, ?_⟩
      · rw [lookupA_removeA_ne (by decide)]
        exact lookupA_setA_self _ _ _
      · exact lookupA_removeA_self _ _
      · intro k hk1 hk2
        rw [lookupA_removeA_ne hk2, lookupA_setA_ne hk1]

theorem fixVarAttrs_getvarAttrs (a : Attrs) :
    fixVarAttrs (getvarAttrs a) = some (fixedGetvarAttrs a) := by
  unfold fixedGetvarAttrs
  have h1 : lookupA (getvarAttrs a) "projection" = some projectionObj :=
    lookupA_setA_self _ _ _
  have h2 : lookupA (setA (getvarAttrs a) "projection" (.str (pyStr projectionObj)))
      "coordinates" = some coordinatesStr := by
    rw [lookupA_setA_ne (by decide)]
    unfold getvarAttrs
    rw [lookupA_setA_ne (by decide)]
    exact lookupA_setA_self _ _ _
  simp [fixVarAttrs, h1, popA, h2]

theorem fixed_getvarAttrs_serializable {a : Attrs}
    (hnd : (a.map Prod.fst).Nodup)
    (hser : ∀ q ∈ a, q.2.serializable = true) :
    ∀ q ∈ fixedGetvarAttrs a, q.2.serializable = true := by
  intro q hq
  unfold fixedGetvarAttrs at hq
  obtain ⟨hq1, _⟩ := mem_removeA hq
  have hndc : ((setA a "coordinates" coordinatesStr).map Prod.fst).Nodup :=
    nodup_keys_setA hnd _ _
  have hndg : ((getvarAttrs a).map Prod.fst).Nodup := nodup_keys_setA hndc _ _
  rcases mem_setA_of_nodup hndg hq1 with h | ⟨h, hne⟩
  · rw [h]; rfl
  · rcases mem_setA_of_nodup hndc h with h2 | ⟨h2, _⟩
    · exact absurd (by rw [h2]) hne
    · rcases mem_setA_of_nodup hnd h2 with h3 | ⟨h3, _⟩
      · rw [h3]; rfl
      · exact hser q h3

theorem getvarAttrs_not_serializable (a : Attrs) :
    ∃ q ∈ getvarAttrs a, q.2.serializable = false := by
  refine ⟨("projection", projectionObj), ?_, rfl⟩
  exact lookupA_mem (lookupA_setA_self _ _ _)

theorem mergedDs_eq {dst : NCDataset} {v1 v2 v3 : NCVariable}
    (h1 : dst.lookupVar "SPDUV10MEAN" = some v1)
    (h2 : dst.lookupVar "V10MEAN" = some v2)
    (h3 : dst.lookupVar "U10MEAN" = some v3) :
    mergedDs dst = some
      ⟨[getvarDA dst "SPDUV10MEAN" v1, getvarDA dst "V10MEAN" v2,
        getvarDA dst "U10MEAN" v3], []⟩ := by
  simp [mergedDs, daList, mapOption, getvar, my_vars, h1, h2, h3, xrMerge]

theorem mergedDs_inv {dst : NCDataset} {ds : XrDataset}
    (hm : mergedDs dst = some ds) :
    ∃ v1 v2 v3, dst.lookupVar "SPDUV10MEAN" = some v1 ∧
      dst.lookupVar "V10MEAN" = some v2 ∧ dst.lookupVar "U10MEAN" = some v3 ∧
      ds = ⟨[getvarDA dst "SPDUV10MEAN" v1, getvarDA dst "V10MEAN" v2,
        getvarDA dst "U10MEAN" v3], []⟩ := by
  cases h1 : dst.lookupVar "SPDUV10MEAN" with
  | none => simp [mergedDs, daList, mapOption, my_vars, getvar, h1] at hm
  | some v1 =>
    cases h2 : dst.lookupVar "V10MEAN" with
    | none => simp [mergedDs, daList, mapOption, my_vars, getvar, h1, h2] at hm
    | some v2 =>
      cases h3 : dst.lookupVar "U10MEAN" with
      | none => simp [mergedDs, daList, mapOption, my_vars, getvar, h1, h2, h3] at hm
      | some v3 =>
        refine ⟨v1, v2, v3, rfl, rfl, rfl, ?_⟩
        have he := mergedDs_eq h1 h2 h3
        rw [hm] at he
        exact Option.some.inj he

theorem findDA_mapSet (l : List DataArray) (n : String) (a : Attrs) :
    findDA (l.map (fun da => if da.name = n then { da with attrs := a } else da)) n =
      (findDA l n).map (fun da => { da with attrs := a }) := by
  induction l with
  | nil => rfl
  | cons da r ih =>
    by_cases h : da.name = n
    · simp [findDA, h]
    · simp [findDA, h, ih]

theorem findDA_mapSet_ne (l : List DataArray) {n m : String} (hnm : m ≠ n) (a : Attrs) :
    findDA (l.map (fun da => if da.name = n then { da with attrs := a } else da)) m =
      findDA l m := by
  induction l with
  | nil => rfl
  | cons da r ih =>
    have hnm2 : ¬ (n = m) := fun hc => hnm hc.symm
    by_cases h : da.name = n
    · have hm2 : ¬ (da.name = m) := fun hc => hnm ((hc ▸ h : m = n))
      simp [findDA, h, hm2, ih, hnm, hnm2]
    · by_cases hm2 : da.name = m
      · simp [findDA, h, hm2, ih, hnm, hnm2]
      · simp [findDA, h, hm2, ih]

theorem lookupDA_setDAAttrs_self (ds : XrDataset) (n : String) (a : Attrs) :
    (ds.setDAAttrs n a).lookupDA n =
      (ds.lookupDA n).map (fun da => { da with attrs := a }) := by
  unfold XrDataset.setDAAttrs XrDataset.lookupDA
  exact findDA_mapSet _ _ _

theorem lookupDA_setDAAttrs_ne (ds : XrDataset) {n m : String} (hnm : m ≠ n) (a : Attrs) :
    (ds.setDAAttrs n a).lookupDA m = ds.lookupDA m := by
  unfold XrDataset.setDAAttrs XrDataset.lookupDA
  exact findDA_mapSet_ne _ hnm _

theorem names_setDAAttrs (ds : XrDataset) (n : String) (a : Attrs) :
    (ds.setDAAttrs n a).dataVars.map (fun da => da.name) =
      ds.dataVars.map (fun da => da.name) := by
  unfold XrDataset.setDAAttrs
  rw [List.map_map]
  apply List.map_congr_left
  intro da _
  by_cases h : da.name = n <;> simp [h]

theorem fixDsVar_inv {ds ds2 : XrDataset} {n : String} (h : fixDsVar ds n = some ds2) :
    ∃ da a2, ds.lookupDA n = some da ∧ fixVarAttrs da.attrs = some a2 ∧
      ds2 = ds.setDAAttrs n a2 := by
  cases hda : ds.lookupDA n with
  | none => simp [fixDsVar, hda] at h
  | some da =>
    cases ha : fixVarAttrs da.attrs with
    | none => simp [fixDsVar, hda, ha] at h
    | some a2 =>
      refine ⟨da, a2, rfl, ha, ?_⟩
      have h2 := h
      simp [fixDsVar, hda, ha] at h2
      exact h2.symm

theorem fixAllAttrs_steps {ds dsF : XrDataset} (h : fixAllAttrs ds = some dsF) :
    ∃ ds1 ds2, fixDsVar ds "SPDUV10MEAN" = some ds1 ∧
      fixDsVar ds1 "V10MEAN" = some ds2 ∧ fixDsVar ds2 "U10MEAN" = some dsF := by
  cases hs1 : fixDsVar ds "SPDUV10MEAN" with
  | none => simp [fixAllAttrs, my_vars, hs1] at h
  | some ds1 =>
    cases hs2 : fixDsVar ds1 "V10MEAN" with
    | none => simp [fixAllAttrs, my_vars, hs1, hs2] at h
    | some ds2 =>
      refine ⟨ds1, ds2, rfl, hs2, ?_⟩
      simpa [fixAllAttrs, my_vars, hs1, hs2] using h

theorem fixAllAttrs_merged (dst : NCDataset) (v1 v2 v3 : NCVariable) :
    fixAllAttrs ⟨[getvarDA dst "SPDUV10MEAN" v1, getvarDA dst "V10MEAN" v2,
      getvarDA dst "U10MEAN" v3], []⟩ =
      some ⟨[⟨"SPDUV10MEAN", v1.dims.map (fun dn => (dn, dst.dimSizeOrZero dn)),
          v1.data, fixedGetvarAttrs v1.attrs⟩,
        ⟨"V10MEAN", v2.dims.map (fun dn => (dn, dst.dimSizeOrZero dn)),
          v2.data, fixedGetvarAttrs v2.attrs⟩,
        ⟨"U10MEAN", v3.dims.map (fun dn => (dn, dst.dimSizeOrZero dn)),
          v3.data, fixedGetvarAttrs v3.attrs⟩], []⟩ := by
  simp only [fixAllAttrs, my_vars, List.foldl_cons, List.foldl_nil, Option.bind_eq_bind,
    Option.some_bind, fixDsVar, XrDataset.lookupDA, findDA, getvarDA,
    XrDataset.setDAAttrs, List.map_cons, List.map_nil, String.reduceEq, reduceIte,
    fixVarAttrs_getvarAttrs]

theorem all_eq_false_exists {α : Type} {l : List α} {f : α → Bool}
    (hf : l.all f = false) : ∃ x ∈ l, f x = false := by
  by_contra hc
  push_neg at hc
  have hall : l.all f = true := List.all_eq_true.mpr (fun x hx => by simpa using hc x hx)
  rw [hall] at hf
  simp at hf

theorem allSer_of_parts {l : List DataArray}
    (h : ∀ da ∈ l, ∀ q ∈ da.attrs, q.2.serializable = true) :
    XrDataset.allAttrsSerializable ⟨l, []⟩ = true := by
  simp only [XrDataset.allAttrsSerializable, List.all_nil, Bool.true_and,
    List.all_eq_true]
  exact h

theorem allSer_merged_false (dst : NCDataset) (v1 v2 v3 : NCVariable) :
    XrDataset.allAttrsSerializable ⟨[getvarDA dst "SPDUV10MEAN" v1,
      getvarDA dst "V10MEAN" v2, getvarDA dst "U10MEAN" v3], []⟩ = false := by
  obtain ⟨q, hq, hqs⟩ := getvarAttrs_not_serializable v1.attrs
  apply Bool.eq_false_iff.mpr
  intro hall
  simp only [XrDataset.allAttrsSerializable, Bool.and_eq_true, List.all_eq_true] at hall
  have h2 := hall.2 (getvarDA dst "SPDUV10MEAN" v1) (by simp)
  have h3 := h2 q (by simpa [getvarDA] using hq)
  rw [hqs] at h3
  exact Bool.false_ne_true h3

theorem toNetcdf_error_iff (d : XrDataset) :
    toNetcdf d = Except.error "TypeError" ↔
      ∃ q, (q ∈ d.attrs ∨ ∃ da, da ∈ d.dataVars ∧ q ∈ da.attrs) ∧
        q.2.serializable = false := by
  constructor
  · intro h
    by_cases hall : d.allAttrsSerializable = true
    · simp [toNetcdf, hall] at h
    · have hfalse : d.allAttrsSerializable = false := by simpa using hall
      simp only [XrDataset.allAttrsSerializable, Bool.and_eq_false_iff] at hfalse
      rcases hfalse with hf | hf
      · obtain ⟨q, hq, hqs⟩ := all_eq_false_exists hf
        exact ⟨q, Or.inl hq, hqs⟩
      · obtain ⟨da, hda, hdas⟩ := all_eq_false_exists hf
        obtain ⟨q, hq, hqs⟩ := all_eq_false_exists hdas
        exact ⟨q, Or.inr ⟨da, hda, hq⟩, hqs⟩
  · rintro ⟨q, hq, hqs⟩
    have hfalse : d.allAttrsSerializable = false := by
      apply Bool.eq_false_iff.mpr
      intro hall
      simp only [XrDataset.allAttrsSerializable, Bool.and_eq_true, List.all_eq_true] at hall
      rcases hq with hq | ⟨da, hda, hq⟩
      · have hv := hall.1 q hq
        rw [hqs] at hv
        exact Bool.false_ne_true hv
      · have hv := hall.2 da hda q hq
        rw [hqs] at hv
        exact Bool.false_ne_true hv
    simp [toNetcdf, hfalse]

/-- C7: for every name in `my_vars` the pipeline issues one `wrf.getvar`
request with `timeidx = ALL_TIMES`, and the merged dataset's data variables
are exactly those names, one per requested field, in order. -/
theorem C7_one_getvar_request_per_var (dst : NCDataset) (ds : XrDataset)
    (hm : mergedDs dst = some ds) :
    getvarRequests = [("SPDUV10MEAN", true), ("V10MEAN", true), ("U10MEAN", true)] ∧
    ds.dataVars.map (fun da => da.name) = my_vars := by
  obtain ⟨v1, v2, v3, h1, h2, h3, hds⟩ := mergedDs_inv hm
  subst hds
  exact ⟨rfl, by simp [getvarDA, my_vars]⟩

theorem C7_one_getvar_request_per_var_witness :
    ∃ ds, mergedDs exDstSimple = some ds ∧
      (getvarRequests = [("SPDUV10MEAN", true), ("V10MEAN", true), ("U10MEAN", true)] ∧
        ds.dataVars.map (fun da => da.name) = my_vars) :=
  ⟨_, rfl, C7_one_getvar_request_per_var exDstSimple _ rfl⟩

/-- C8 counterexample: the claim says no stage's behaviour depends on
catching an exception, but the dst-close step in cell 6 is a try/except
`NameError` guard. -/
theorem C8_claim_counterexample :
    (⟨6, "close existing in-memory dst, guarded by try/except NameError",
      .tryExceptGuard⟩ : ScriptStmt) ∈ notebookStmts ∧
    branchFree ⟨6, "close existing in-memory dst, guarded by try/except NameError",
      .tryExceptGuard⟩ = false := by
  exact ⟨by simp [notebookStmts], rfl⟩

/-- C8 (amended): every statement of the script is branch-free — no exception
handling, no conditional path, no retry — except exactly three: the two
try/except `NameError` guards closing the in-memory dataset (cells 6 and 14)
and the dimension-copy statement whose size is chosen by an inline
conditional on `isunlimited` (cell 6). -/
theorem C8_branchfree_amended :
    (notebookStmts.filter (fun s => !(branchFree s))).map (fun s => (s.cell, s.kind)) =
      [(6, .tryExceptGuard), (6, .condExprCall), (14, .tryExceptGuard)] := by
  rfl

/-- C1: writing the merged dataset raises `TypeError` (the `projection`
attribute holds a non-serializable object), the same write succeeds after the
attribute fix, and in general the write raises exactly when some attribute
value is not serializable (not a number, string, ndarray, or list/tuple of
those). -/
theorem C1_first_write_raises_fixed_write_succeeds (dst : NCDataset) (ds : XrDataset)
    (hm : mergedDs dst = some ds)
    (hnd : ∀ q ∈ dst.vars, (q.2.attrs.map Prod.fst).Nodup)
    (hser : ∀ q ∈ dst.vars, ∀ r ∈ q.2.attrs, r.2.serializable = true) :
    toNetcdf ds = Except.error "TypeError" ∧
    (∃ dsF, fixAllAttrs ds = some dsF ∧ toNetcdf dsF = Except.ok dsF) ∧
    (∀ d : XrDataset, toNetcdf d = Except.error "TypeError" ↔
      ∃ q, (q ∈ d.attrs ∨ ∃ da, da ∈ d.dataVars ∧ q ∈ da.attrs) ∧
        q.2.serializable = false) := by
  obtain ⟨v1, v2, v3, h1, h2, h3, hds⟩ := mergedDs_inv hm
  subst hds
  have hserz : XrDataset.allAttrsSerializable
      ⟨[⟨"SPDUV10MEAN", v1.dims.map (fun dn => (dn, dst.dimSizeOrZero dn)),
          v1.data, fixedGetvarAttrs v1.attrs⟩,
        ⟨"V10MEAN", v2.dims.map (fun dn => (dn, dst.dimSizeOrZero dn)),
          v2.data, fixedGetvarAttrs v2.attrs⟩,
        ⟨"U10MEAN", v3.dims.map (fun dn => (dn, dst.dimSizeOrZero dn)),
          v3.data, fixedGetvarAttrs v3.attrs⟩], []⟩ = true := by
    apply allSer_of_parts
    intro da hda
    have hm1 : ("SPDUV10MEAN", v1) ∈ dst.vars := lookupA_mem h1
    have hm2 : ("V10MEAN", v2) ∈ dst.vars := lookupA_mem h2
    have hm3 : ("U10MEAN", v3) ∈ dst.vars := lookupA_mem h3
    simp only [List.mem_cons, List.not_mem_nil, or_false] at hda
    rcases hda with hda | hda | hda <;> subst hda
    · exact fixed_getvarAttrs_serializable (hnd _ hm1) (hser _ hm1)
    · exact fixed_getvarAttrs_serializable (hnd _ hm2) (hser _ hm2)
    · exact fixed_getvarAttrs_serializable (hnd _ hm3) (hser _ hm3)
  refine ⟨?_, ⟨_, fixAllAttrs_merged dst v1 v2 v3, ?_⟩, toNetcdf_error_iff⟩
  · simp [toNetcdf, allSer_merged_false]
  · simp [toNetcdf, hserz]

theorem C1_first_write_raises_fixed_write_succeeds_witness :
    ∃ ds, mergedDs exDstSimple = some ds ∧
      toNetcdf ds = Except.error "TypeError" ∧
      (∃ dsF, fixAllAttrs ds = some dsF ∧ toNetcdf dsF = Except.ok dsF) := by
  have h := C1_first_write_raises_fixed_write_succeeds exDstSimple _ rfl
    (by decide) (by decide)
  exact ⟨_, rfl, h.1, h.2.1⟩

/-- C5: the write–reopen round trip preserves structure — the reopened dataset
has the same dimension names and sizes as the dataset that was written, and
its data-variable names are exactly `my_vars`. -/
theorem C5_roundtrip_preserves_structure (dst : NCDataset) (ds dsF : XrDataset)
    (hm : mergedDs dst = some ds)
    (hnd : ∀ q ∈ dst.vars, (q.2.attrs.map Prod.fst).Nodup)
    (hser : ∀ q ∈ dst.vars, ∀ r ∈ q.2.attrs, r.2.serializable = true)
    (hfix : fixAllAttrs ds = some dsF) :
    ∃ file, toNetcdf dsF = Except.ok file ∧
      (openDataset file).dimsOf = dsF.dimsOf ∧
      (openDataset file).dataVars.map (fun da => da.name) = my_vars := by
  obtain ⟨v1, v2, v3, h1, h2, h3, hds⟩ := mergedDs_inv hm
  subst hds
  rw [fixAllAttrs_merged dst v1 v2 v3] at hfix
  obtain rfl := (Option.some.inj hfix).symm
  have hserz : XrDataset.allAttrsSerializable
      ⟨[⟨"SPDUV10MEAN", v1.dims.map (fun dn => (dn, dst.dimSizeOrZero dn)),
          v1.data, fixedGetvarAttrs v1.attrs⟩,
        ⟨"V10MEAN", v2.dims.map (fun dn => (dn, dst.dimSizeOrZero dn)),
          v2.data, fixedGetvarAttrs v2.attrs⟩,
        ⟨"U10MEAN", v3.dims.map (fun dn => (dn, dst.dimSizeOrZero dn)),
          v3.data, fixedGetvarAttrs v3.attrs⟩], []⟩ = true := by
    apply allSer_of_parts
    intro da hda
    have hm1 : ("SPDUV10MEAN", v1) ∈ dst.vars := lookupA_mem h1
    have hm2 : ("V10MEAN", v2) ∈ dst.vars := lookupA_mem h2
    have hm3 : ("U10MEAN", v3) ∈ dst.vars := lookupA_mem h3
    simp only [List.mem_cons, List.not_mem_nil, or_false] at hda
    rcases hda with hda | hda | hda <;> subst hda
    · exact fixed_getvarAttrs_serializable (hnd _ hm1) (hser _ hm1)
    · exact fixed_getvarAttrs_serializable (hnd _ hm2) (hser _ hm2)
    · exact fixed_getvarAttrs_serializable (hnd _ hm3) (hser _ hm3)
  refine ⟨_, by simp [toNetcdf, hserz], rfl, by simp [my_vars, openDataset]⟩

theorem C5_roundtrip_preserves_structure_witness :
    ∃ ds dsF, mergedDs exDstSimple = some ds ∧ fixAllAttrs ds = some dsF ∧
      ∃ file, toNetcdf dsF = Except.ok file ∧
        (openDataset file).dimsOf = dsF.dimsOf ∧
        (openDataset file).dataVars.map (fun da => da.name) = my_vars := by
  exact ⟨_, _, rfl, rfl, C5_roundtrip_preserves_structure exDstSimple _ _ rfl
    (by decide) (by decide) rfl⟩

/-- C6: the script writes exactly one file, `test.nc`; the assembly container
is opened diskless, so `dst_tmp.nc` is never created on disk. -/
theorem C6_writes_only_test_nc (dst : NCDataset) (ds : XrDataset)
    (hm : mergedDs dst = some ds)
    (hnd : ∀ q ∈ dst.vars, (q.2.attrs.map Prod.fst).Nodup)
    (hser : ∀ q ∈ dst.vars, ∀ r ∈ q.2.attrs, r.2.serializable = true) :
    scriptFileWrites dst = some ["test.nc"] ∧
    openWriteFiles "dst_tmp.nc" true = [] ∧
    "dst_tmp.nc" ∉ ["test.nc"] := by
  obtain ⟨v1, v2, v3, h1, h2, h3, hds⟩ := mergedDs_inv hm
  have hmerged := mergedDs_eq h1 h2 h3
  have hserz : XrDataset.allAttrsSerializable
      ⟨[⟨"SPDUV10MEAN", v1.dims.map (fun dn => (dn, dst.dimSizeOrZero dn)),
          v1.data, fixedGetvarAttrs v1.attrs⟩,
        ⟨"V10MEAN", v2.dims.map (fun dn => (dn, dst.dimSizeOrZero dn)),
          v2.data, fixedGetvarAttrs v2.attrs⟩,
        ⟨"U10MEAN", v3.dims.map (fun dn => (dn, dst.dimSizeOrZero dn)),
          v3.data, fixedGetvarAttrs v3.attrs⟩], []⟩ = true := by
    apply allSer_of_parts
    intro da hda
    have hm1 : ("SPDUV10MEAN", v1) ∈ dst.vars := lookupA_mem h1
    have hm2 : ("V10MEAN", v2) ∈ dst.vars := lookupA_mem h2
    have hm3 : ("U10MEAN", v3) ∈ dst.vars := lookupA_mem h3
    simp only [List.mem_cons, List.not_mem_nil, or_false] at hda
    rcases hda with hda | hda | hda <;> subst hda
    · exact fixed_getvarAttrs_serializable (hnd _ hm1) (hser _ hm1)
    · exact fixed_getvarAttrs_serializable (hnd _ hm2) (hser _ hm2)
    · exact fixed_getvarAttrs_serializable (hnd _ hm3) (hser _ hm3)
  refine ⟨?_, rfl, by simp⟩
  simp [scriptFileWrites, hmerged, fixAllAttrs_merged, toNetcdfFiles, toNetcdf,
    allSer_merged_false, hserz, openWriteFiles]

theorem C6_writes_only_test_nc_witness :
    scriptFileWrites exDstSimple = some ["test.nc"] ∧
    openWriteFiles "dst_tmp.nc" true = [] ∧
    "dst_tmp.nc" ∉ ["test.nc"] :=
  C6_writes_only_test_nc exDstSimple _ rfl (by decide) (by decide)

theorem fixAllAttrs_var_attrs {ds dsF : XrDataset} (hfix : fixAllAttrs ds = some dsF)
    {n : String} (hn : n ∈ my_vars) :
    ∃ da a2, ds.lookupDA n = some da ∧ fixVarAttrs da.attrs = some a2 ∧
      dsF.lookupDA n = some { da with attrs := a2 } := by
  obtain ⟨ds1, ds2, hs1, hs2, hs3⟩ := fixAllAttrs_steps hfix
  obtain ⟨da1, a21, hda1, hfa1, hds1⟩ := fixDsVar_inv hs1
  obtain ⟨da2, a22, hda2, hfa2, hds2⟩ := fixDsVar_inv hs2
  obtain ⟨da3, a23, hda3, hfa3, hds3⟩ := fixDsVar_inv hs3
  subst hds1
  subst hds2
  subst hds3
  simp only [my_vars, List.mem_cons, List.not_mem_nil, or_false] at hn
  rcases hn with rfl | rfl | rfl
  · refine ⟨da1, a21, hda1, hfa1, ?_⟩
    rw [lookupDA_setDAAttrs_ne _
        (show ("SPDUV10MEAN" : String) ≠ "U10MEAN" by decide) a23,
      lookupDA_setDAAttrs_ne _
        (show ("SPDUV10MEAN" : String) ≠ "V10MEAN" by decide) a22,
      lookupDA_setDAAttrs_self, hda1]
    rfl
  · rw [lookupDA_setDAAttrs_ne _
        (show ("V10MEAN" : String) ≠ "SPDUV10MEAN" by decide) a21] at hda2
    refine ⟨da2, a22, hda2, hfa2, ?_⟩
    rw [lookupDA_setDAAttrs_ne _
        (show ("V10MEAN" : String) ≠ "U10MEAN" by decide) a23,
      lookupDA_setDAAttrs_self, lookupDA_setDAAttrs_ne _
        (show ("V10MEAN" : String) ≠ "SPDUV10MEAN" by decide) a21, hda2]
    rfl
  · rw [lookupDA_setDAAttrs_ne _
        (show ("U10MEAN" : String) ≠ "V10MEAN" by decide) a22,
      lookupDA_setDAAttrs_ne _
        (show ("U10MEAN" : String) ≠ "SPDUV10MEAN" by decide) a21] at hda3
    refine ⟨da3, a23, hda3, hfa3, ?_⟩
    rw [lookupDA_setDAAttrs_self, lookupDA_setDAAttrs_ne _
        (show ("U10MEAN" : String) ≠ "V10MEAN" by decide) a22,
      lookupDA_setDAAttrs_ne _
        (show ("U10MEAN" : String) ≠ "SPDUV10MEAN" by decide) a21, hda3]
    rfl

/-- C2 counterexample: the pre-write workaround does not leave every
non-`projection` attribute unchanged — on the pipeline's own merged dataset
the `coordinates` attribute of `SPDUV10MEAN` is present before the fix and
gone after it. -/
theorem C2_claim_counterexample :
    ∃ ds dsF, mergedDs exDstSimple = some ds ∧ fixAllAttrs ds = some dsF ∧
      (ds.lookupDA "SPDUV10MEAN").map (fun da => lookupA da.attrs "coordinates") =
        some (some coordinatesStr) ∧
      (dsF.lookupDA "SPDUV10MEAN").map (fun da => lookupA da.attrs "coordinates") =
        some none :=
  ⟨exMerged, exFixed, rfl, rfl, rfl, rfl⟩

/-- C2 (amended): for every name in `my_vars` the fix loop replaces the
`projection` attribute by its string form and also removes the `coordinates`
attribute; every attribute other than these two is left unchanged. -/
theorem C2_fix_also_removes_coordinates (ds dsF : XrDataset)
    (hfix : fixAllAttrs ds = some dsF) (n : String) (hn : n ∈ my_vars) :
    ∃ da da2 p, ds.lookupDA n = some da ∧ dsF.lookupDA n = some da2 ∧
      lookupA da.attrs "projection" = some p ∧
      lookupA da2.attrs "projection" = some (.str (pyStr p)) ∧
      lookupA da2.attrs "coordinates" = none ∧
      ∀ k, k ≠ "projection" → k ≠ "coordinates" →
        lookupA da2.attrs k = lookupA da.attrs k := by
  obtain ⟨da, a2, hda, hfa, hda2⟩ := fixAllAttrs_var_attrs hfix hn
  obtain ⟨p, hp, _, hproj, hcoord, hframe⟩ := fixVarAttrs_spec hfa
  exact ⟨da, { da with attrs := a2 }, p, hda, hda2, hp, hproj, hcoord, hframe⟩

theorem C2_fix_also_removes_coordinates_witness :
    ∃ ds dsF, mergedDs exDstSimple = some ds ∧ fixAllAttrs ds = some dsF ∧
      ∃ da da2 p, ds.lookupDA "SPDUV10MEAN" = some da ∧
        dsF.lookupDA "SPDUV10MEAN" = some da2 ∧
        lookupA da.attrs "projection" = some p ∧
        lookupA da2.attrs "projection" = some (.str (pyStr p)) ∧
        lookupA da2.attrs "coordinates" = none ∧
        ∀ k, k ≠ "projection" → k ≠ "coordinates" →
          lookupA da2.attrs k = lookupA da.attrs k := by
  exact ⟨exMerged, exFixed, rfl, rfl,
    C2_fix_also_removes_coordinates exMerged exFixed rfl "SPDUV10MEAN" (by decide)⟩

/-- C4: in the dataset that is written, each `my_vars` variable carries
exactly its pre-fix attributes except that `projection` is replaced by its
`str()` form and `coordinates` is removed — for every key, the post-fix
lookup is fully determined by the pre-fix dictionary. -/
theorem C4_written_attrs_frame (ds dsF : XrDataset)
    (hfix : fixAllAttrs ds = some dsF) (n : String) (hn : n ∈ my_vars) :
    ∃ da da2 p, ds.lookupDA n = some da ∧ dsF.lookupDA n = some da2 ∧
      lookupA da.attrs "projection" = some p ∧
      ∀ k, lookupA da2.attrs k =
        if k = "projection" then some (.str (pyStr p))
        else if k = "coordinates" then none
        else lookupA da.attrs k := by
  obtain ⟨da, a2, hda, hfa, hda2⟩ := fixAllAttrs_var_attrs hfix hn
  obtain ⟨p, hp, _, hproj, hcoord, hframe⟩ := fixVarAttrs_spec hfa
  refine ⟨da, { da with attrs := a2 }, p, hda, hda2, hp, ?_⟩
  intro k
  by_cases hk1 : k = "projection"
  · subst hk1
    simp [hproj]
  · by_cases hk2 : k = "coordinates"
    · subst hk2
      simp [hcoord, hk1]
    · simp only [hk1, hk2, if_false]
      exact hframe k hk1 hk2

theorem C4_written_attrs_frame_witness :
    ∃ ds dsF, mergedDs exDstSimple = some ds ∧ fixAllAttrs ds = some dsF ∧
      ∃ da da2 p, ds.lookupDA "V10MEAN" = some da ∧
        dsF.lookupDA "V10MEAN" = some da2 ∧
        lookupA da.attrs "projection" = some p ∧
        ∀ k, lookupA da2.attrs k =
          if k = "projection" then some (.str (pyStr p))
          else if k = "coordinates" then none
          else lookupA da.attrs k := by
  exact ⟨exMerged, exFixed, rfl, rfl,
    C4_written_attrs_frame exMerged exFixed rfl "V10MEAN" (by decide)⟩

/-- C3: the copy stage is faithful — every source dimension reappears in the
destination with the same name and length (`none` = unlimited stays
unlimited), the global attributes are copied over exactly, and `Times` and
each `my_vars` variable is copied with the same datatype, dimension tuple,
data, and attributes. -/
theorem C3_copy_stage_faithful
    (transform : Int → Int → Int × Int) (src coord dst : NCDataset)
    (vT vLat vLong v1 v2 v3 : NCVariable) (nx ny : Nat) (dy : Int)
    (hT : src.lookupVar "Times" = some vT)
    (hLat : coord.lookupVar "XLAT" = some vLat)
    (hLong : coord.lookupVar "XLONG" = some vLong)
    (h1 : src.lookupVar "SPDUV10MEAN" = some v1)
    (h2 : src.lookupVar "V10MEAN" = some v2)
    (h3 : src.lookupVar "U10MEAN" = some v3)
    (hnx : lookupA src.dims "west_east" = some (some nx))
    (hny : lookupA src.dims "south_north" = some (some ny))
    (hnum : hasNumAttrs src.attrs cell9AttrNames = true)
    (hdy : lookupA src.attrs "DY" = some (.num dy))
    (hAttrNd : (src.attrs.map Prod.fst).Nodup)
    (hDimNd : (src.dims.map Prod.fst).Nodup)
    (hTnd : (vT.attrs.map Prod.fst).Nodup)
    (h1nd : (v1.attrs.map Prod.fst).Nodup)
    (h2nd : (v2.attrs.map Prod.fst).Nodup)
    (h3nd : (v3.attrs.map Prod.fst).Nodup)
    (hb : buildDst transform src coord = some dst) :
    (∀ q ∈ src.dims, dst.lookupDim q.1 = some q.2) ∧
    dst.attrs = src.attrs ∧
    dst.lookupVar "Times" = some vT ∧
    dst.lookupVar "SPDUV10MEAN" = some v1 ∧
    dst.lookupVar "V10MEAN" = some v2 ∧
    dst.lookupVar "U10MEAN" = some v3 := by
  rw [buildDst_explicit transform src coord vT vLat vLong v1 v2 v3 nx ny dy hT hLat
    hLong h1 h2 h3 hnx hny hnum hdy hAttrNd] at hb
  obtain rfl := Option.some.inj hb
  refine ⟨?_, rfl, ?_, ?_, ?_, ?_⟩
  · intro q hq
    exact mem_lookupA hDimNd hq
  · show lookupA _ "Times" = some vT
    simp [builtDst, lookupA, setncattsList_empty hTnd]
  · show lookupA _ "SPDUV10MEAN" = some v1
    simp [builtDst, lookupA, setncattsList_empty h1nd]
  · show lookupA _ "V10MEAN" = some v2
    simp [builtDst, lookupA, setncattsList_empty h2nd]
  · show lookupA _ "U10MEAN" = some v3
    simp [builtDst, lookupA, setncattsList_empty h3nd]

theorem C3_copy_stage_faithful_witness :
    buildDst exTransform exSrc exCoord = some exBuilt ∧
    ((∀ q ∈ exSrc.dims, exBuilt.lookupDim q.1 = some q.2) ∧
      exBuilt.attrs = exSrc.attrs ∧
      exBuilt.lookupVar "Times" = some exTimes ∧
      exBuilt.lookupVar "SPDUV10MEAN" = some (exVar 1) ∧
      exBuilt.lookupVar "V10MEAN" = some (exVar 2) ∧
      exBuilt.lookupVar "U10MEAN" = some (exVar 3)) := by
  have hb : buildDst exTransform exSrc exCoord = some exBuilt :=
    buildDst_explicit exTransform exSrc exCoord exTimes (exCoordVar (-78))
      (exCoordVar (-123)) (exVar 1) (exVar 2) (exVar 3) 3 2 10000 rfl rfl rfl rfl
      rfl rfl rfl rfl (by decide) rfl (by decide)
  exact ⟨hb, C3_copy_stage_faithful exTransform exSrc exCoord exBuilt exTimes
    (exCoordVar (-78)) (exCoordVar (-123)) (exVar 1) (exVar 2) (exVar 3) 3 2 10000
    rfl rfl rfl rfl rfl rfl rfl rfl (by decide) rfl (by decide) (by decide)
    (by decide) (by decide) (by decide) (by decide) hb⟩

/-- C9: the `XLAT` / `XLONG` grids stored in the destination are constant
along the time dimension — every time slice equals the coordinate file's
time-0 slice. -/
theorem C9_coords_constant_in_time
    (transform : Int → Int → Int × Int) (src coord dst : NCDataset)
    (vT vLat vLong v1 v2 v3 : NCVariable) (nx ny : Nat) (dy : Int)
    (hT : src.lookupVar "Times" = some vT)
    (hLat : coord.lookupVar "XLAT" = some vLat)
    (hLong : coord.lookupVar "XLONG" = some vLong)
    (h1 : src.lookupVar "SPDUV10MEAN" = some v1)
    (h2 : src.lookupVar "V10MEAN" = some v2)
    (h3 : src.lookupVar "U10MEAN" = some v3)
    (hnx : lookupA src.dims "west_east" = some (some nx))
    (hny : lookupA src.dims "south_north" = some (some ny))
    (hnum : hasNumAttrs src.attrs cell9AttrNames = true)
    (hdy : lookupA src.attrs "DY" = some (.num dy))
    (hAttrNd : (src.attrs.map Prod.fst).Nodup)
    (hb : buildDst transform src coord = some dst) :
    ∃ vdLat vdLong, dst.lookupVar "XLAT" = some vdLat ∧
      dst.lookupVar "XLONG" = some vdLong ∧
      (∀ t i j, vdLat.data [t, i, j] = vLat.data [0, i, j]) ∧
      (∀ t i j, vdLong.data [t, i, j] = vLong.data [0, i, j]) := by
  rw [buildDst_explicit transform src coord vT vLat vLong v1 v2 v3 nx ny dy hT hLat
    hLong h1 h2 h3 hnx hny hnum hdy hAttrNd] at hb
  obtain rfl := Option.some.inj hb
  refine ⟨⟨vLat.datatype, vLat.dims, broadcastTime0 vLat.data,
      setncattsList [] vLat.attrs⟩,
    ⟨vLong.datatype, vLong.dims, broadcastTime0 vLong.data,
      setncattsList [] vLong.attrs⟩, ?_, ?_, ?_, ?_⟩
  · show lookupA _ "XLAT" = _
    simp [builtDst, lookupA]
  · show lookupA _ "XLONG" = _
    simp [builtDst, lookupA]
  · intro t i j
    simp [broadcastTime0]
  · intro t i j
    simp [broadcastTime0]

theorem C9_coords_constant_in_time_witness :
    ∃ vdLat vdLong, exBuilt.lookupVar "XLAT" = some vdLat ∧
      exBuilt.lookupVar "XLONG" = some vdLong ∧
      (∀ t i j, vdLat.data [t, i, j] = (exCoordVar (-78)).data [0, i, j]) ∧
      (∀ t i j, vdLong.data [t, i, j] = (exCoordVar (-123)).data [0, i, j]) := by
  have hb : buildDst exTransform exSrc exCoord = some exBuilt :=
    buildDst_explicit exTransform exSrc exCoord exTimes (exCoordVar (-78))
      (exCoordVar (-123)) (exVar 1) (exVar 2) (exVar 3) 3 2 10000 rfl rfl rfl rfl
      rfl rfl rfl rfl (by decide) rfl (by decide)
  exact C9_coords_constant_in_time exTransform exSrc exCoord exBuilt exTimes
    (exCoordVar (-78)) (exCoordVar (-123)) (exVar 1) (exVar 2) (exVar 3) 3 2 10000
    rfl rfl rfl rfl rfl rfl rfl rfl (by decide) rfl (by decide) hb

/-- C10: both projected axes are arithmetic sequences with the same common
spacing `dy` (the `DY` global attribute) starting at the transformed corner
point; the `DX` attribute (bound here as `dx`) plays no part in either
formula. -/
theorem C10_axes_spacing_dy
    (transform : Int → Int → Int × Int) (src coord dst : NCDataset)
    (vT vLat vLong v1 v2 v3 : NCVariable) (nx ny : Nat) (dy dx : Int)
    (hT : src.lookupVar "Times" = some vT)
    (hLat : coord.lookupVar "XLAT" = some vLat)
    (hLong : coord.lookupVar "XLONG" = some vLong)
    (h1 : src.lookupVar "SPDUV10MEAN" = some v1)
    (h2 : src.lookupVar "V10MEAN" = some v2)
    (h3 : src.lookupVar "U10MEAN" = some v3)
    (hnx : lookupA src.dims "west_east" = some (some nx))
    (hny : lookupA src.dims "south_north" = some (some ny))
    (hnum : hasNumAttrs src.attrs cell9AttrNames = true)
    (hdy : lookupA src.attrs "DY" = some (.num dy))
    (hdx : lookupA src.attrs "DX" = some (.num dx))
    (hAttrNd : (src.attrs.map Prod.fst).Nodup)
    (hb : buildDst transform src coord = some dst) :
    ∃ vwe vsn, dst.lookupVar "west_east" = some vwe ∧
      dst.lookupVar "south_north" = some vsn ∧
      (∀ i, i < nx → vwe.data [i] =
        (i : Int) * dy + (transform (vLong.data [0, 0, 0]) (vLat.data [0, 0, 0])).1) ∧
      (∀ j, j < ny → vsn.data [j] =
        (j : Int) * dy + (transform (vLong.data [0, 0, 0]) (vLat.data [0, 0, 0])).2) := by
  rw [buildDst_explicit transform src coord vT vLat vLong v1 v2 v3 nx ny dy hT hLat
    hLong h1 h2 h3 hnx hny hnum hdy hAttrNd] at hb
  obtain rfl := Option.some.inj hb
  refine ⟨⟨"float32", ["west_east"],
      axisPoints nx dy (transform (vLong.data [0, 0, 0]) (vLat.data [0, 0, 0])).1,
      [("units", .str "m"), ("axis", .str "x")]⟩,
    ⟨"float32", ["south_north"],
      axisPoints ny dy (transform (vLong.data [0, 0, 0]) (vLat.data [0, 0, 0])).2,
      [("units", .str "m"), ("axis", .str "y")]⟩, ?_, ?_, ?_, ?_⟩
  · show lookupA _ "west_east" = _
    simp [builtDst, lookupA]
  · show lookupA _ "south_north" = _
    simp [builtDst, lookupA]
  · intro i hi
    simp [axisPoints, hi]
  · intro j hj
    simp [axisPoints, hj]

theorem C10_axes_spacing_dy_witness :
    ∃ vwe vsn, exBuilt.lookupVar "west_east" = some vwe ∧
      exBuilt.lookupVar "south_north" = some vsn ∧
      (∀ i, i < 3 → vwe.data [i] = (i : Int) * 10000 +
        (exTransform ((exCoordVar (-123)).data [0, 0, 0])
          ((exCoordVar (-78)).data [0, 0, 0])).1) ∧
      (∀ j, j < 2 → vsn.data [j] = (j : Int) * 10000 +
        (exTransform ((exCoordVar (-123)).data [0, 0, 0])
          ((exCoordVar (-78)).data [0, 0, 0])).2) := by
  have hb : buildDst exTransform exSrc exCoord = some exBuilt :=
    buildDst_explicit exTransform exSrc exCoord exTimes (exCoordVar (-78))
      (exCoordVar (-123)) (exVar 1) (exVar 2) (exVar 3) 3 2 10000 rfl rfl rfl rfl
      rfl rfl rfl rfl (by decide) rfl (by decide)
  exact C10_axes_spacing_dy exTransform exSrc exCoord exBuilt exTimes
    (exCoordVar (-78)) (exCoordVar (-123)) (exVar 1) (exVar 2) (exVar 3) 3 2 10000
    9000 rfl rfl rfl rfl rfl rfl rfl rfl (by decide) rfl rfl (by decide) hb

end CFWrf
